import Mathlib

/-!
Verification of the supplied flax repository slice: the NNX tutorial
notebook (`src/flax/experimental/nnx/docs/why.ipynb`), the GitHub Actions
workflow embedded after it in the same file, and the documentation layers
index (`src/unnamed/part_000`).  Each Lean definition below is a shallow
embedding of one artifact of the source, written directly from the source
text.
-/

namespace Flax

/-! ## The CI workflow (`name: Build`) embedded in the source file -/

/-- One event trigger of the workflow: the event name together with the
branch filters given under it in the `on:` section. -/
structure Trigger where
  event : String
  branches : List String
deriving DecidableEq, Repr

/-- The `on:` section of the workflow: `push` on `main` and `test_*`,
`pull_request` on `main`. -/
def workflowTriggers : List Trigger :=
  [⟨"push", ["main", "test_*"]⟩, ⟨"pull_request", ["main"]⟩]

/-- One job of the `jobs:` section: its key and its `needs:` list
(empty when the job has no `needs:` line). -/
structure JobSpec where
  name : String
  needs : List String
deriving DecidableEq, Repr

/-- The five jobs of the workflow, in source order, each with its
`needs:` list. -/
def workflowJobs : List JobSpec :=
  [⟨"cancel-previous", []⟩,
   ⟨"pre-commit", []⟩,
   ⟨"commit-count", []⟩,
   ⟨"test-import", []⟩,
   ⟨"tests", ["cancel-previous", "pre-commit", "commit-count", "test-import"]⟩]

/-- The `python-version` axis of the `tests` job matrix. -/
def pythonVersions : List String := ["3.9", "3.10", "3.11"]

/-- The `test-type` axis of the `tests` job matrix. -/
def testTypes : List String := ["doctest", "pytest", "pytype", "mypy"]

/-- The `exclude:` entries of the `tests` job matrix. -/
def matrixExcluded (t v : String) : Bool :=
  (t = "pytype" && v = "3.11") || (t = "pytype" && v = "3.10") ||
  (t = "mypy" && v = "3.11")

/-- The (test-type, python-version) combinations the `tests` matrix
actually produces: the full product minus the `exclude:` entries. -/
def matrixCombos : List (String × String) :=
  (testTypes.flatMap (fun t => pythonVersions.map (fun v => (t, v)))).filter
    (fun p => !matrixExcluded p.1 p.2)

/-- Outcome of a shell step: either it runs a script with a list of flags,
or it exits with a status code. -/
inductive StepResult where
  | run (script : String) (flags : List String)
  | exitCode (n : Nat)
deriving DecidableEq, Repr

/-- The `Test with ${{ matrix.test-type }}` step of the `tests` job: the
if/elif shell chain dispatching on the test type, ending in `exit 1`. -/
def testStep (t : String) : StepResult :=
  if t = "doctest" then
    .run "tests/run_all_tests.sh" ["--no-pytest", "--no-pytype", "--no-mypy", "--use-venv"]
  else if t = "pytest" then
    .run "tests/run_all_tests.sh" ["--no-doctest", "--no-pytype", "--no-mypy", "--with-cov", "--use-venv"]
  else if t = "pytype" then
    .run "tests/run_all_tests.sh" ["--no-doctest", "--no-pytest", "--no-mypy", "--use-venv"]
  else if t = "mypy" then
    .run "tests/run_all_tests.sh" ["--no-doctest", "--no-pytest", "--no-pytype", "--use-venv"]
  else
    .exitCode 1

/-- Outcome of the commit-count shell check: success or `exit 1`. -/
inductive CheckOutcome where
  | ok
  | fail (code : Nat)
deriving DecidableEq, Repr

/-- The `Check commit count in PR` step: `diff` is the value computed by
`git rev-list --count origin/main...commit-count`; the step runs
`if (( $diff > 6 )); then ... exit 1; fi` and otherwise succeeds. -/
def commitCountCheck (diff : Nat) : CheckOutcome :=
  if diff > 6 then .fail 1 else .ok

/-- The condition on the `Cancel previous` step of the `cancel-previous`
job: `if: ${{github.ref != 'refs/head/main'}}`.  The step executes exactly
when this is true of the run's `github.ref`. -/
def cancelStepRuns (ref : String) : Bool :=
  ref != "refs/head/main"

/-- A schedule of a workflow run: start and end times for each job key. -/
structure Schedule where
  startTime : String → Nat
  endTime : String → Nat

/-- A schedule respects a job list when every job starts only after each
job named in its `needs:` list has ended. -/
def Schedule.respects (s : Schedule) (jobs : List JobSpec) : Prop :=
  ∀ j ∈ jobs, ∀ d ∈ j.needs, s.endTime d < s.startTime j.name

/-! ## The documentation layers index (`src/unnamed/part_000`) -/

/-- The class names carrying a `.. flax_module::` directive in the layers
index, in source order. -/
def flaxModuleDirectives : List String :=
  ["Dense", "DenseGeneral", "Conv", "ConvTranspose", "ConvLocal", "Embed",
   "BatchNorm", "LayerNorm", "GroupNorm", "RMSNorm", "InstanceNorm",
   "SpectralNorm", "WeightNorm", "Sequential", "Dropout",
   "MultiHeadDotProductAttention", "MultiHeadAttention", "SelfAttention",
   "RNNCellBase", "LSTMCell", "OptimizedLSTMCell", "GRUCell", "MGUCell",
   "RNN", "Bidirectional", "BatchApply"]

/-- The class names of the first `.. autosummary::` block (the one with
the `flax_module` template), in source order. -/
def autosummaryModules : List String :=
  ["Dense", "DenseGeneral", "Conv", "ConvTranspose", "ConvLocal", "Embed",
   "BatchNorm", "LayerNorm", "GroupNorm", "RMSNorm", "SpectralNorm",
   "WeightNorm", "Sequential", "Dropout", "MultiHeadDotProductAttention",
   "MultiHeadAttention", "SelfAttention", "RNNCellBase", "LSTMCell",
   "OptimizedLSTMCell", "GRUCell", "RNN", "Bidirectional"]

/-! ## The NNX notebook: Module, split and merge -/

/-- A typed variable of a Module: its collection tag (the `nnx.Variable`
subtype, e.g. `Param` or `Count`) and its numeric value. -/
structure Variable where
  collection : String
  value : Int
deriving DecidableEq, Repr

mutual
/-- Modelled from the spec: the implementation of `nnx.Module` and its
split/merge machinery is not among the supplied files (the notebook only
shows its use and printed output).  Following the printed `GraphDef` and
`State` outputs, a Module node holds static fields, typed variables
(its dynamic numeric state) and named submodules. -/
inductive Module where
  | mk (static_fields : List (String × Nat)) (vars : List (String × Variable))
      (submodules : Submodules)
deriving DecidableEq, Repr
/-- The named submodules of a Module node. -/
inductive Submodules where
  | nil
  | cons (name : String) (m : Module) (rest : Submodules)
deriving DecidableEq, Repr
end

mutual
/-- Modelled from the spec: the dictionary-like JAX pytree of dynamic
numeric state produced by `Module.split`; a node holds the values of the
module's variables and the states of its submodules. -/
inductive State where
  | mk (leaves : List (String × Int)) (children : SubStates)
deriving DecidableEq, Repr
/-- The named child states of a State node. -/
inductive SubStates where
  | nil
  | cons (name : String) (s : State) (rest : SubStates)
deriving DecidableEq, Repr
end

mutual
/-- Modelled from the spec: the data-free static metadata pytree produced
by `Module.split`; per the printed output it keeps the static fields and,
for every variable, its name and collection with an `Empty` value. -/
inductive GraphDef where
  | mk (static_fields : List (String × Nat)) (varcols : List (String × String))
      (children : SubGraphs)
deriving DecidableEq, Repr
/-- The named child graph definitions of a GraphDef node. -/
inductive SubGraphs where
  | nil
  | cons (name : String) (g : GraphDef) (rest : SubGraphs)
deriving DecidableEq, Repr
end

mutual
/-- Modelled from the spec: `Module.split` separates a Module into its
dynamic numeric `State` and its static structural `GraphDef`. -/
def Module.split : Module → State × GraphDef
  | .mk sf vars subs =>
    let p := Submodules.splitAll subs
    (State.mk (vars.map (fun v => (v.1, v.2.value))) p.1,
     GraphDef.mk sf (vars.map (fun v => (v.1, v.2.collection))) p.2)
/-- Split every submodule. -/
def Submodules.splitAll : Submodules → SubStates × SubGraphs
  | .nil => (.nil, .nil)
  | .cons n m rest =>
    let p := m.split
    let r := Submodules.splitAll rest
    (.cons n p.1 r.1, .cons n p.2 r.2)
end

/-- Rebuild the typed variables of a node from the collection tags kept
in the GraphDef and the values kept in the State. -/
def mergeVars : List (String × String) → List (String × Int) → List (String × Variable)
  | (n, c) :: cs, (_, v) :: vs => (n, ⟨c, v⟩) :: mergeVars cs vs
  | _, _ => []

mutual
/-- Modelled from the spec: `GraphDef.merge` takes a `GraphDef` and a
`State` and merges them back into a `Module`. -/
def GraphDef.merge : GraphDef → State → Module
  | .mk sf cols children, .mk leaves schildren =>
    Module.mk sf (mergeVars cols leaves) (SubGraphs.mergeAll children schildren)
/-- Merge every child graph definition with the matching child state. -/
def SubGraphs.mergeAll : SubGraphs → SubStates → Submodules
  | .cons n g gs, .cons _ s ss => .cons n (g.merge s) (SubGraphs.mergeAll gs ss)
  | _, _ => .nil
end

mutual
/-- The dynamic numeric state of a Module, read directly off the module
tree: every variable value under its slash-path, as in the notebook's
printed flat `State` (e.g. `models/linear/kernel`). -/
def Module.flatState : Module → List (List String × Int)
  | .mk _ vars subs =>
    vars.map (fun v => ([v.1], v.2.value)) ++ Submodules.flatStates subs
/-- Flat dynamic state of every submodule, paths extended by the name. -/
def Submodules.flatStates : Submodules → List (List String × Int)
  | .nil => []
  | .cons n m rest =>
    (Module.flatState m).map (fun p => (n :: p.1, p.2)) ++ Submodules.flatStates rest
end

mutual
/-- Flatten a State tree to its leaves under slash-paths. -/
def State.flatten : State → List (List String × Int)
  | .mk leaves children =>
    leaves.map (fun l => ([l.1], l.2)) ++ SubStates.flattenAll children
/-- Flatten every child state, paths extended by the name. -/
def SubStates.flattenAll : SubStates → List (List String × Int)
  | .nil => []
  | .cons n s rest =>
    (State.flatten s).map (fun p => (n :: p.1, p.2)) ++ SubStates.flattenAll rest
end

/-! ## The notebook's `CounterLinear` example -/

/-- Modelled from the spec: `nnx.Linear` is a dense layer of the external
library, not among the supplied files; we keep its `kernel` and `bias`
parameters and take the array operations (contraction and addition) as
parameters, so its application is `add (matmul x kernel) bias`. -/
structure Linear (A : Type) where
  kernel : A
  bias : A

/-- Application of the linear layer: `x @ kernel + bias`. -/
def Linear.apply {A : Type} (matmul add : A → A → A) (l : Linear A) (x : A) : A :=
  add (matmul x l.kernel) l.bias

/-- The `CounterLinear` module of the notebook: a contained `linear`
layer and a `count` variable. -/
structure CounterLinear (A : Type) where
  linear : Linear A
  count : Int

/-- `CounterLinear.__call__` from the notebook:
`self.count += 1; return self.linear(x)`.  Returns the updated module
together with the returned value. -/
def CounterLinear.call {A : Type} (matmul add : A → A → A)
    (m : CounterLinear A) (x : A) : CounterLinear A × A :=
  ({ m with count := m.count + 1 }, Linear.apply matmul add m.linear x)

/-! ## Helper lemmas -/

/-- Rebuilding the typed variables from their collection tags and values
recovers them. -/
theorem mergeVars_of_split (vs : List (String × Variable)) :
    mergeVars (vs.map (fun v => (v.1, v.2.collection)))
      (vs.map (fun v => (v.1, v.2.value))) = vs := by
  induction vs with
  | nil => rfl
  | cons hd tl ih => simp [mergeVars, ih]

mutual
/-- Merging the two halves of a split recovers the Module. -/
theorem merge_split_mod : ∀ m : Module,
    GraphDef.merge (Module.split m).2 (Module.split m).1 = m
  | .mk sf vs subs => by
    simp [Module.split, GraphDef.merge, mergeVars_of_split, merge_split_subs subs]
/-- Merging the two halves of a split recovers every submodule. -/
theorem merge_split_subs : ∀ s : Submodules,
    SubGraphs.mergeAll (Submodules.splitAll s).2 (Submodules.splitAll s).1 = s
  | .nil => rfl
  | .cons n m rest => by
    simp [Submodules.splitAll, SubGraphs.mergeAll, merge_split_mod m,
      merge_split_subs rest]
end

mutual
/-- The State produced by split flattens to exactly the module's dynamic
numeric state. -/
theorem flatten_split_mod : ∀ m : Module,
    State.flatten (Module.split m).1 = Module.flatState m
  | .mk sf vs subs => by
    simp [Module.split, State.flatten, Module.flatState, flatten_split_subs subs]
/-- The child states produced by split flatten to exactly the
submodules' dynamic numeric state. -/
theorem flatten_split_subs : ∀ s : Submodules,
    SubStates.flattenAll (Submodules.splitAll s).1 = Submodules.flatStates s
  | .nil => rfl
  | .cons n m rest => by
    simp [Submodules.splitAll, SubStates.flattenAll, Submodules.flatStates,
      flatten_split_mod m, flatten_split_subs rest]
end

/-! ## Claim theorems -/

/-- Claim C1: for every Module, split returns a State holding exactly the
module's dynamic numeric state (the same path-to-value leaves as the
module's variables) and a data-free GraphDef of static structural
metadata, and merging that GraphDef with that State reconstructs the
original Module: split followed by merge is a round-trip. -/
theorem c1_split_merge_roundtrip (m : Module) :
    State.flatten (Module.split m).1 = Module.flatState m ∧
    GraphDef.merge (Module.split m).2 (Module.split m).1 = m :=
  ⟨flatten_split_mod m, merge_split_mod m⟩

/-- Claim C2 fails as stated: two operations defined in the supplied
files take an error branch at these concrete inputs — the commit-count
check exits 1 at a diff of 7, and the matrix test step exits 1 on an
unknown test type. -/
theorem c2_error_counterexample :
    commitCountCheck 7 = .fail 1 ∧ testStep "unknown" = .exitCode 1 := by
  decide

/-- Claim C2 amended: the supplied files contain exactly two error
branches, both in the CI workflow — the commit-count check fails (with
status 1) precisely when the counted diff exceeds 6, and the matrix test
step exits with status 1 precisely when the test type is outside
doctest/pytest/pytype/mypy. -/
theorem c2_error_branches :
    (∀ d : Nat, commitCountCheck d ≠ .ok ↔ 6 < d) ∧
    (∀ t : String, testStep t = .exitCode 1 ↔ t ∉ testTypes) := by
  refine ⟨fun d => ?_, fun t => ?_⟩
  · by_cases h : 6 < d <;> simp [commitCountCheck, h]
  · by_cases hmem : t ∈ testTypes
    · have : t = "doctest" ∨ t = "pytest" ∨ t = "pytype" ∨ t = "mypy" := by
        simpa [testTypes] using hmem
      rcases this with rfl | rfl | rfl | rfl <;> decide
    · have hne := hmem
      simp only [testTypes, List.mem_cons, List.not_mem_nil, or_false] at hne
      push_neg at hne
      obtain ⟨h1, h2, h3, h4⟩ := hne
      simp [testStep, h1, h2, h3, h4, hmem]

/-- Claim C3 fails as stated: pytype is in the test-type axis and 3.11 in
the python-version axis, yet the matrix `exclude:` entries remove the
(pytype, 3.11) run. -/
theorem c3_matrix_counterexample :
    "pytype" ∈ testTypes ∧ "3.11" ∈ pythonVersions ∧
    ("pytype", "3.11") ∉ matrixCombos := by
  decide

/-- Claim C3 amended: the pipeline consists of the cancellation,
pre-commit, commit-count, import smoke-test and tests jobs, and the tests
matrix runs doctest and pytest for every Python version (3.9, 3.10,
3.11), pytype only for 3.9, and mypy only for 3.9 and 3.10 (pytype on
3.10/3.11 and mypy on 3.11 are excluded). -/
theorem c3_pipeline_jobs_and_matrix :
    workflowJobs.map JobSpec.name =
      ["cancel-previous", "pre-commit", "commit-count", "test-import", "tests"] ∧
    matrixCombos =
      [("doctest", "3.9"), ("doctest", "3.10"), ("doctest", "3.11"),
       ("pytest", "3.9"), ("pytest", "3.10"), ("pytest", "3.11"),
       ("pytype", "3.9"), ("mypy", "3.9"), ("mypy", "3.10")] := by
  decide

/-- Claim C4: the workflow triggers on push (to main or branches matching
test_*) and on pull_request (targeting main), and on no other event. -/
theorem c4_workflow_triggers :
    workflowTriggers.map Trigger.event = ["push", "pull_request"] ∧
    (workflowTriggers.filter (fun t => t.event = "push")).map Trigger.branches =
      [["main", "test_*"]] ∧
    (workflowTriggers.filter (fun t => t.event = "pull_request")).map Trigger.branches =
      [["main"]] := by
  decide

/-- The flags claim C5 prescribes for a matrix test type, written from
the spec's words: the three `--no-` flags disabling the other three test
types, `--with-cov` additionally only for pytest, and `--use-venv`. -/
def claimedFlags (t : String) : List String :=
  (testTypes.filter (fun u => u ≠ t)).map (fun u => "--no-" ++ u) ++
    (if t = "pytest" then ["--with-cov"] else []) ++ ["--use-venv"]

/-- Claim C5: for every matrix test type the test step invokes
`tests/run_all_tests.sh` with exactly the three `--no-` flags disabling
the other three test types together with `--use-venv` (and `--with-cov`
additionally only for pytest), and for any test type outside the four the
step exits with status 1. -/
theorem c5_test_step (t : String) :
    (t ∈ testTypes → ∃ fl, testStep t = .run "tests/run_all_tests.sh" fl ∧
      fl.Perm (claimedFlags t)) ∧
    (t ∉ testTypes → testStep t = .exitCode 1) := by
  constructor
  · intro ht
    have : t = "doctest" ∨ t = "pytest" ∨ t = "pytype" ∨ t = "mypy" := by
      simpa [testTypes] using ht
    rcases this with rfl | rfl | rfl | rfl <;> exact ⟨_, rfl, by decide⟩
  · intro ht
    have hne := ht
    simp only [testTypes, List.mem_cons, List.not_mem_nil, or_false] at hne
    push_neg at hne
    obtain ⟨h1, h2, h3, h4⟩ := hne
    simp [testStep, h1, h2, h3, h4]

/-- Witness for claim C5 at the concrete test types doctest (a matrix
type) and unknown-type (outside the matrix). -/
theorem c5_test_step_witness :
    (∃ fl, testStep "doctest" = .run "tests/run_all_tests.sh" fl ∧
      fl.Perm (claimedFlags "doctest")) ∧
    testStep "unknown-type" = .exitCode 1 :=
  ⟨(c5_test_step "doctest").1 (by decide), (c5_test_step "unknown-type").2 (by decide)⟩

/-- Claim C6: in every schedule respecting the workflow's `needs:` lists,
the tests matrix job starts only after the cancellation, pre-commit,
commit-count and import smoke-test jobs have all completed. -/
theorem c6_tests_after_needs (s : Schedule) (h : s.respects workflowJobs) :
    ∀ d ∈ ["cancel-previous", "pre-commit", "commit-count", "test-import"],
      s.endTime d < s.startTime "tests" := by
  intro d hd
  exact h ⟨"tests", ["cancel-previous", "pre-commit", "commit-count", "test-import"]⟩
    (by decide) d hd

/-- A concrete schedule: the four needed jobs run in the interval [0, 1]
and the tests job in [2, 3]. -/
def sampleSchedule : Schedule :=
  ⟨fun n => if n = "tests" then 2 else 0, fun n => if n = "tests" then 3 else 1⟩

/-- Witness for claim C6 at the concrete schedule `sampleSchedule` and
the needed job pre-commit. -/
theorem c6_tests_after_needs_witness :
    sampleSchedule.endTime "pre-commit" < sampleSchedule.startTime "tests" :=
  c6_tests_after_needs sampleSchedule
    (by simp only [Schedule.respects]; decide) "pre-commit" (by decide)

/-- Claim C7 fails as stated: InstanceNorm is documented with a
flax_module directive but does not appear in the autosummary listing. -/
theorem c7_index_counterexample :
    "InstanceNorm" ∈ flaxModuleDirectives ∧
    "InstanceNorm" ∉ autosummaryModules := by
  decide

/-- Claim C7 amended: every layer class documented with a flax_module
directive, except InstanceNorm, MGUCell and BatchApply, appears in the
autosummary listing, and conversely every autosummary layer name is
documented with a flax_module directive. -/
theorem c7_index_cross_reference :
    (∀ c ∈ flaxModuleDirectives,
      c ∈ autosummaryModules ∨ c = "InstanceNorm" ∨ c = "MGUCell" ∨ c = "BatchApply") ∧
    (∀ c ∈ autosummaryModules, c ∈ flaxModuleDirectives) := by
  decide

/-- Witness for claim C7 (amended) at the concrete layer class Dense. -/
theorem c7_index_cross_reference_witness :
    "Dense" ∈ autosummaryModules ∨ "Dense" = "InstanceNorm" ∨
    "Dense" = "MGUCell" ∨ "Dense" = "BatchApply" :=
  c7_index_cross_reference.1 "Dense" (by decide)

/-- Claim C8: the commit-count check exits with status 1 exactly when the
counted diff exceeds 6 and succeeds whenever it is 6 or fewer, even
though the stated policy allows at most 5 commits in a branch. -/
theorem c8_commit_count (d : Nat) :
    (commitCountCheck d = .fail 1 ↔ 6 < d) ∧ (d ≤ 6 → commitCountCheck d = .ok) := by
  refine ⟨?_, fun hle => ?_⟩
  · by_cases h : 6 < d <;> simp [commitCountCheck, h]
  · have h : ¬6 < d := by omega
    simp [commitCountCheck, h]

/-- Witness for claim C8 at diffs 7 (fails) and 6 (succeeds). -/
theorem c8_commit_count_witness :
    commitCountCheck 7 = .fail 1 ∧ commitCountCheck 6 = .ok :=
  ⟨(c8_commit_count 7).1.mpr (by decide), (c8_commit_count 6).2 (by decide)⟩

/-- Claim C9: the cancel step executes exactly when github.ref differs
from the literal `refs/head/main`; a push to main has ref
`refs/heads/main` (with an s), so the cancel step also executes for
pushes to main. -/
theorem c9_cancel_step (ref : String) :
    (cancelStepRuns ref = true ↔ ref ≠ "refs/head/main") ∧
    cancelStepRuns "refs/heads/main" = true := by
  constructor
  · simp [cancelStepRuns]
  · decide

/-- Claim C10: calling a CounterLinear increments its count variable by
exactly 1, leaves linear.kernel and linear.bias unchanged, and returns
the contained linear layer (with those unchanged parameters) applied to
the input. -/
theorem c10_counter_linear_call {A : Type} (matmul add : A → A → A)
    (m : CounterLinear A) (x : A) :
    (CounterLinear.call matmul add m x).1.count = m.count + 1 ∧
    (CounterLinear.call matmul add m x).1.linear.kernel = m.linear.kernel ∧
    (CounterLinear.call matmul add m x).1.linear.bias = m.linear.bias ∧
    (CounterLinear.call matmul add m x).2 = Linear.apply matmul add m.linear x :=
  ⟨rfl, rfl, rfl, rfl⟩

end Flax
